import Mathlib

set_option maxRecDepth 40000

/-!
Shallow embedding of the crates.io fault aggregation and response synthesis
engine: `src/util/errors.rs` and `src/util/errors/json.rs`.
-/

namespace CratesIo

/-- Modelled from the spec: chrono's `NaiveDateTime` (the chrono crate is an
external dependency, not part of this repository).  Only the calendar fields
consumed by the `"%a, %d %b %Y %H:%M:%S GMT"` format are represented. -/
structure NaiveDateTime where
  year : Nat
  month : Nat
  day : Nat
  hour : Nat
  minute : Nat
  second : Nat
deriving DecidableEq

/-- Zero-padding to two digits, as produced by chrono's `%d`, `%H`, `%M`, `%S`. -/
def pad2 (n : Nat) : String :=
  if n < 10 then "0" ++ toString n else toString n

/-- Zero-padding to four digits, as produced by chrono's `%Y` for common years. -/
def pad4 (n : Nat) : String :=
  if n < 10 then "000" ++ toString n
  else if n < 100 then "00" ++ toString n
  else if n < 1000 then "0" ++ toString n
  else toString n

/-- Weekday abbreviation used by chrono's `%a` (0 = Sunday). -/
def weekdayAbbrev : Nat → String
  | 0 => "Sun"
  | 1 => "Mon"
  | 2 => "Tue"
  | 3 => "Wed"
  | 4 => "Thu"
  | 5 => "Fri"
  | _ => "Sat"

/-- Month abbreviation used by chrono's `%b` (months numbered from 1). -/
def monthAbbrev : Nat → String
  | 1 => "Jan"
  | 2 => "Feb"
  | 3 => "Mar"
  | 4 => "Apr"
  | 5 => "May"
  | 6 => "Jun"
  | 7 => "Jul"
  | 8 => "Aug"
  | 9 => "Sep"
  | 10 => "Oct"
  | 11 => "Nov"
  | _ => "Dec"

/-- Day of the week (0 = Sunday) by Sakamoto's method; agrees with the
Gregorian calendar for years ≥ 1 and months 1–12. -/
def dayOfWeek (y m d : Nat) : Nat :=
  let t := [0, 3, 2, 5, 0, 3, 5, 1, 4, 6, 2, 4]
  let y := if m < 3 then y - 1 else y
  (y + y / 4 - y / 100 + y / 400 + t.getD (m - 1) 0 + d) % 7

/-- Modelled from the spec: chrono's `format("%a, %d %b %Y %H:%M:%S GMT")`
(the `HTTP_DATE_FORMAT` constant of `TooManyRequests::response`); chrono's
formatter is an external dependency, so the fixed format string from the spec
is expanded field by field. -/
def NaiveDateTime.formatHttpDate (dt : NaiveDateTime) : String :=
  weekdayAbbrev (dayOfWeek dt.year dt.month dt.day) ++ ", " ++ pad2 dt.day ++ " " ++
    monthAbbrev dt.month ++ " " ++ pad4 dt.year ++ " " ++
    pad2 dt.hour ++ ":" ++ pad2 dt.minute ++ ":" ++ pad2 dt.second ++ " GMT"

/-- Closed set of opaque failure values (`Box<dyn Error>`) that the engine
inspects via `downcast_ref`: the two recognized diesel signatures, the marker
structs of `util/errors/json.rs` that the `root_cause` constructors place in
cause chains, and an `other` variant carrying only its `Display` text. -/
inductive Failure where
  | dieselDatabaseError (message : String)
  | dieselNotFound
  | notFoundMarker
  | forbiddenMarker
  | readOnlyModeMarker
  | tooManyRequestsMarker (retry_after : NaiveDateTime)
  | insecurelyGeneratedTokenRevokedMarker
  | other (display : String)
deriving DecidableEq

/-- Display text of each failure (`e.to_string()`): the diesel texts follow the
diesel crate's `Display` impl (an external dependency: `DatabaseError` shows
`info.message()`, `NotFound` shows "Record not found"); the marker texts are
the `Display` impls in `util/errors/json.rs`. -/
def Failure.display : Failure → String
  | .dieselDatabaseError message => message
  | .dieselNotFound => "Record not found"
  | .notFoundMarker => "NotFound"
  | .forbiddenMarker => "Forbidden"
  | .readOnlyModeMarker => "Tried to write in read only mode"
  | .tooManyRequestsMarker _ => "TooManyRequests"
  | .insecurelyGeneratedTokenRevokedMarker => "insecurely generated, revoked 2020-07"
  | .other display => display

/-- Test performed by `ErrorBuilder::build` (errors.rs line 207):
`root_cause.downcast_ref()` succeeding with `diesel::result::Error::NotFound`. -/
def Failure.isDieselNotFound : Failure → Bool
  | .dieselNotFound => true
  | _ => false

/-- Rust's `str::ends_with` with a string pattern: the receiver ends with the
pattern's characters (equivalent to the byte-suffix test on UTF-8 data). -/
def strEndsWith (s pat : String) : Bool :=
  pat.data.isSuffixOf s.data

/-- Guard of `convert_special_errors` (errors.rs lines 264–266): the failure
downcasts to `DieselError::DatabaseError(_, info)` and `info.message()` ends
with the literal "read-only transaction". -/
def Failure.isReadOnlyViolation : Failure → Bool
  | .dieselDatabaseError message => strEndsWith message "read-only transaction"
  | _ => false

/-- Modelled from the spec: `crate::util::AppResponse` (a conduit HTTP
response; `util/mod.rs` and the conduit crate are not under src/).  `status`
is the numeric HTTP status code, `body` the serialized JSON body, `headers`
the name/value pairs this engine itself sets. -/
structure AppResponse where
  status : Nat
  headers : List (String × String)
  body : String
deriving DecidableEq

/-- Lowercase hexadecimal digit, for JSON control-character escapes. -/
def hexDigit (n : Nat) : Char :=
  if n < 10 then Char.ofNat (48 + n) else Char.ofNat (87 + n)

/-- Modelled from the spec: serde_json's escaping of one character inside a
JSON string (serialization is performed by `json_response`, outside src/).
None of the catalog's fixed texts contain a character that is escaped. -/
def jsonEscapeChar (c : Char) : String :=
  if c = '"' then "\\\""
  else if c = '\\' then "\\\\"
  else if c.toNat = 8 then "\\b"
  else if c.toNat = 9 then "\\t"
  else if c.toNat = 10 then "\\n"
  else if c.toNat = 12 then "\\f"
  else if c.toNat = 13 then "\\r"
  else if c.toNat < 32 then
    "\\u00" ++ String.singleton (hexDigit (c.toNat / 16)) ++
      String.singleton (hexDigit (c.toNat % 16))
  else String.singleton c

/-- Modelled from the spec: serde_json string escaping applied to a whole
detail string. -/
def jsonEscape (s : String) : String :=
  String.join (s.data.map jsonEscapeChar)

/-- Function `json_error` of `util/errors/json.rs`: a response whose body is
the serialization of `Bad \x7b errors: vec![StringError \x7b detail \x7d] \x7d`,
i.e. `{"errors":[{"detail": <string>}]}` per the spec's body-shape contract,
with the provided status.  The envelope is modelled from the spec because
`json_response` lives in `util/mod.rs`, outside src/. -/
def json_error (detail : String) (status : Nat) : AppResponse :=
  { status := status
    headers := []
    body := "\x7b\"errors\":[\x7b\"detail\":\"" ++ jsonEscape detail ++ "\"\x7d]\x7d" }

/-- Response of the `NotFound` catalog entry: 404 with detail "Not Found". -/
def NotFound.response : AppResponse :=
  json_error "Not Found" 404

/-- Response of the `Forbidden` catalog entry. -/
def Forbidden.response : AppResponse :=
  json_error "must be logged in to perform that action" 403

/-- Response of the `ReadOnlyMode` catalog entry: 503 with the fixed
maintenance-mode text. -/
def ReadOnlyMode.response : AppResponse :=
  json_error
    "Crates.io is currently in read-only mode for maintenance. Please try again later."
    503

/-- Response of `json::BadRequest` (400, caller-supplied message). -/
def BadRequest.response (msg : String) : AppResponse :=
  json_error msg 400

/-- Response of `json::ServerError` (500, caller-supplied message). -/
def ServerError.response (msg : String) : AppResponse :=
  json_error msg 500

/-- Response of `json::CargoLegacy` (200, caller-supplied message). -/
def CargoLegacy.response (msg : String) : AppResponse :=
  json_error msg 200

/-- Response of the `TooManyRequests` catalog entry (json.rs lines 147–169):
formats `retry_after` once, embeds it in the detail text, and inserts the same
formatted string as the `Retry-After` header. -/
def TooManyRequests.response (retry_after : NaiveDateTime) : AppResponse :=
  let retry_after := retry_after.formatHttpDate
  let detail := "You have published too many crates in a short period of time. " ++
    "Please try again after " ++ retry_after ++
    " or email help@crates.io to have your limit increased."
  let response := json_error detail 429
  { response with headers := response.headers ++ [("Retry-After", retry_after)] }

/-- Response of the `InsecurelyGeneratedTokenRevoked` catalog entry (401). -/
def InsecurelyGeneratedTokenRevoked.response : AppResponse :=
  json_error
    ("The given API token does not match the format used by crates.io. " ++
     "Tokens generated before 2020-07-14 were generated with an insecure " ++
     "random number generator, and have been revoked. You can generate a " ++
     "new token at https://crates.io/me. " ++
     "For more information please see " ++
     "https://blog.rust-lang.org/2020/07/14/crates-io-security-advisory.html. " ++
     "We apologize for any inconvenience.")
    401

/-- Elements of the cause chain (`enum ChainElement`, errors.rs lines 219–226). -/
inductive ChainElement where
  | Internal (info : String)
  | Error (e : Failure)
deriving DecidableEq

/-- The error builder (`struct ErrorBuilder`, errors.rs lines 75–81): a cause
chain whose first element, if present, is the root cause, plus an optional
user-facing response. -/
structure ErrorBuilder where
  chain : List ChainElement
  user_facing_response : Option AppResponse
deriving DecidableEq

/-- Constructor `NotFound::root_cause` (json.rs lines 48–53). -/
def NotFound.root_cause : ErrorBuilder :=
  { chain := [ChainElement.Error Failure.notFoundMarker]
    user_facing_response := some NotFound.response }

/-- Constructor `Forbidden::root_cause` (json.rs lines 74–79). -/
def Forbidden.root_cause : ErrorBuilder :=
  { chain := [ChainElement.Error Failure.forbiddenMarker]
    user_facing_response := some Forbidden.response }

/-- Constructor `ReadOnlyMode::root_cause` (json.rs lines 100–105): the chain
holds the `ReadOnlyMode` marker struct itself, and the response is committed
eagerly. -/
def ReadOnlyMode.root_cause : ErrorBuilder :=
  { chain := [ChainElement.Error Failure.readOnlyModeMarker]
    user_facing_response := some ReadOnlyMode.response }

/-- Constructor `TooManyRequests::root_cause` (json.rs lines 171–176). -/
def TooManyRequests.root_cause (retry_after : NaiveDateTime) : ErrorBuilder :=
  { chain := [ChainElement.Error (Failure.tooManyRequestsMarker retry_after)]
    user_facing_response := some (TooManyRequests.response retry_after) }

/-- Constructor `InsecurelyGeneratedTokenRevoked::root_cause` (json.rs 204–209). -/
def InsecurelyGeneratedTokenRevoked.root_cause : ErrorBuilder :=
  { chain := [ChainElement.Error Failure.insecurelyGeneratedTokenRevokedMarker]
    user_facing_response := some InsecurelyGeneratedTokenRevoked.response }

/-- Helper `UserFacing::bad_request` (errors.rs lines 37–39). -/
def UserFacing.bad_request (user_message : String) : AppResponse :=
  BadRequest.response user_message

/-- Helper `UserFacing::custom_bad_request` (errors.rs lines 45–47). -/
def UserFacing.custom_bad_request (user_message : String) : AppResponse :=
  BadRequest.response user_message

/-- Helper `UserFacing::server_error` (errors.rs lines 50–52). -/
def UserFacing.server_error (user_message : String) : AppResponse :=
  ServerError.response user_message

/-- Helper `UserFacing::cargo_err_legacy` (errors.rs lines 58–60). -/
def UserFacing.cargo_err_legacy (user_message : String) : AppResponse :=
  CargoLegacy.response user_message

/-- Helper `UserFacing::custom_cargo_err_legacy` (errors.rs lines 69–71). -/
def UserFacing.custom_cargo_err_legacy (user_message : String) : AppResponse :=
  CargoLegacy.response user_message

/-- Constructor `ErrorBuilder::bad_request` (errors.rs lines 107–112). -/
def ErrorBuilder.bad_request (user_message : String) : ErrorBuilder :=
  { chain := [], user_facing_response := some (UserFacing.bad_request user_message) }

/-- Constructor `ErrorBuilder::custom_bad_request` (errors.rs lines 118–123). -/
def ErrorBuilder.custom_bad_request (user_message : String) : ErrorBuilder :=
  { chain := [], user_facing_response := some (UserFacing.custom_bad_request user_message) }

/-- Constructor `ErrorBuilder::server_error` (errors.rs lines 126–131). -/
def ErrorBuilder.server_error (user_message : String) : ErrorBuilder :=
  { chain := [], user_facing_response := some (ServerError.response user_message) }

/-- Constructor `ErrorBuilder::internal` (errors.rs lines 134–139). -/
def ErrorBuilder.internal (info : String) : ErrorBuilder :=
  { chain := [ChainElement.Internal info], user_facing_response := none }

/-- Constructor `ErrorBuilder::cargo_err_legacy` (errors.rs lines 145–150). -/
def ErrorBuilder.cargo_err_legacy (user_message : String) : ErrorBuilder :=
  { chain := [], user_facing_response := some (UserFacing.cargo_err_legacy user_message) }

/-- Constructor `ErrorBuilder::custom_cargo_err_legacy` (errors.rs 159–164). -/
def ErrorBuilder.custom_cargo_err_legacy (user_message : String) : ErrorBuilder :=
  { chain := [], user_facing_response := some (UserFacing.custom_cargo_err_legacy user_message) }

/-- Text contributed by one chain element to the rendered cause chain
(errors.rs lines 184–187): an `Internal` entry yields its info string, an
`Error` entry its `to_string()`. -/
def ChainElement.text : ChainElement → String
  | .Internal info => info
  | .Error e => e.display

/-- Rust's `[String]::join(sep)` as applied to the collected chain texts. -/
def vecJoin (sep : String) : List String → String
  | [] => ""
  | [x] => x
  | x :: y :: ys => x ++ sep ++ vecJoin sep (y :: ys)

/-- Method `ErrorBuilder::cause_chain` (errors.rs lines 180–190): reverse the
chain, render each element's text, join with " caused by ". -/
def ErrorBuilder.cause_chain (b : ErrorBuilder) : String :=
  vecJoin " caused by " (b.chain.reverse.map ChainElement.text)

/-- Struct `InternalAppError` (errors.rs line 342), whose `Display` prints the
wrapped string verbatim. -/
structure InternalAppError where
  text : String
deriving DecidableEq

/-- Display impl of `InternalAppError` (errors.rs lines 346–351). -/
def InternalAppError.display (e : InternalAppError) : String :=
  e.text

/-- Enum `BuiltResponse` (errors.rs lines 229–239): a user-facing response
with an optional cause string for logging, or an error for the middleware. -/
inductive BuiltResponse where
  | Response (response : AppResponse) (cause : Option String)
  | Error (e : InternalAppError)
deriving DecidableEq

/-- Method `ErrorBuilder::build` (errors.rs lines 193–216). -/
def ErrorBuilder.build (b : ErrorBuilder) : BuiltResponse :=
  match b.user_facing_response with
  | some response =>
    BuiltResponse.Response response (if b.chain.isEmpty then none else some b.cause_chain)
  | none =>
    match b.chain.head? with
    | some (ChainElement.Error root_cause) =>
      if root_cause.isDieselNotFound then BuiltResponse.Response NotFound.response none
      else BuiltResponse.Error ⟨b.cause_chain⟩
    | _ => BuiltResponse.Error ⟨b.cause_chain⟩

/-- Result type `AppResult<T> = Result<T, Box<ErrorBuilder>>` (errors.rs 30). -/
abbrev AppResult (T : Type) := Except ErrorBuilder T

/-- Function `convert_special_errors` (errors.rs lines 263–276), also the
`From<E> for Box<ErrorBuilder>` impl (lines 99–103): a read-only-transaction
database error classifies to `ReadOnlyMode.root_cause`; anything else becomes
the sole opaque root of a fresh builder with no committed response. -/
def convert_special_errors (cause : Failure) : ErrorBuilder :=
  if cause.isReadOnlyViolation then ReadOnlyMode.root_cause
  else { chain := [ChainElement.Error cause], user_facing_response := none }

/-- Method `chain_internal_err_cause` of `ChainError for AppResult<T>`
(errors.rs lines 296–303): push an `Internal` entry onto the chain. -/
def chain_internal_err_cause {T : Type} (r : AppResult T) (internal_message : String) :
    AppResult T :=
  match r with
  | .ok v => .ok v
  | .error builder =>
    .error { builder with chain := builder.chain ++ [ChainElement.Internal internal_message] }

/-- Method `chain_user_facing_fallback` of `ChainError for AppResult<T>`
(errors.rs lines 308–315): the callback runs only when no user-facing
response has been set yet. -/
def chain_user_facing_fallback {T : Type} (r : AppResult T) (callback : Unit → AppResponse) :
    AppResult T :=
  match r with
  | .ok v => .ok v
  | .error builder =>
    .error (if builder.user_facing_response.isNone
      then { builder with user_facing_response := some (callback ()) }
      else builder)

/-- Method `chain_internal_err_cause` of `ChainError for Result<T, E>`
(errors.rs lines 280–284): convert the error, then chain. -/
def result_chain_internal_err_cause {T : Type} (r : Except Failure T)
    (internal_message : String) : AppResult T :=
  match r with
  | .ok v => .ok v
  | .error cause =>
    chain_internal_err_cause (.error (convert_special_errors cause)) internal_message

/-- Method `chain_user_facing_fallback` of `ChainError for Result<T, E>`
(errors.rs lines 287–291). -/
def result_chain_user_facing_fallback {T : Type} (r : Except Failure T)
    (callback : Unit → AppResponse) : AppResult T :=
  match r with
  | .ok v => .ok v
  | .error cause =>
    chain_user_facing_fallback (.error (convert_special_errors cause)) callback

/-- Method `chain_internal_err_cause` of `ChainError for Option<T>`
(errors.rs lines 320–327). -/
def option_chain_internal_err_cause {T : Type} (o : Option T) (internal_message : String) :
    AppResult T :=
  match o with
  | some v => .ok v
  | none =>
    .error { chain := [ChainElement.Internal internal_message], user_facing_response := none }

/-- Method `chain_user_facing_fallback` of `ChainError for Option<T>`
(errors.rs lines 330–337). -/
def option_chain_user_facing_fallback {T : Type} (o : Option T)
    (callback : Unit → AppResponse) : AppResult T :=
  match o with
  | some v => .ok v
  | none => .error { chain := [], user_facing_response := some (callback ()) }

/-- Builders reachable through the public entry points: the `From<E>`
conversion (`convert_special_errors`, which the `ChainError for Result<T, E>`
methods also factor through), the named constructors, the catalog `root_cause`
constructors, the `ChainError for Option<T>` methods, and closure under the
two `ChainError for AppResult<T>` operations. -/
inductive Reachable : ErrorBuilder → Prop where
  | from_error (cause : Failure) : Reachable (convert_special_errors cause)
  | bad_request (m : String) : Reachable (ErrorBuilder.bad_request m)
  | custom_bad_request (m : String) : Reachable (ErrorBuilder.custom_bad_request m)
  | server_error (m : String) : Reachable (ErrorBuilder.server_error m)
  | internal (info : String) : Reachable (ErrorBuilder.internal info)
  | cargo_err_legacy (m : String) : Reachable (ErrorBuilder.cargo_err_legacy m)
  | custom_cargo_err_legacy (m : String) : Reachable (ErrorBuilder.custom_cargo_err_legacy m)
  | not_found_root : Reachable NotFound.root_cause
  | forbidden_root : Reachable Forbidden.root_cause
  | read_only_root : Reachable ReadOnlyMode.root_cause
  | too_many_requests_root (t : NaiveDateTime) : Reachable (TooManyRequests.root_cause t)
  | insecure_token_root : Reachable InsecurelyGeneratedTokenRevoked.root_cause
  | option_internal (m : String) (b : ErrorBuilder) :
      option_chain_internal_err_cause (none : Option Unit) m = Except.error b →
      Reachable b
  | option_fallback (cb : Unit → AppResponse) (b : ErrorBuilder) :
      option_chain_user_facing_fallback (none : Option Unit) cb = Except.error b →
      Reachable b
  | chain_internal (b b' : ErrorBuilder) (m : String) : Reachable b →
      chain_internal_err_cause (Except.error b : AppResult Unit) m = Except.error b' →
      Reachable b'
  | chain_fallback (b b' : ErrorBuilder) (cb : Unit → AppResponse) : Reachable b →
      chain_user_facing_fallback (Except.error b : AppResult Unit) cb = Except.error b' →
      Reachable b'

/-! Theorems -/

/-- C2: chain_user_facing_fallback commits the callback's result exactly when
no response is committed yet; when one is already committed it leaves the
error unchanged and the callback is never invoked (the result does not
mention the callback); after proposing A then B on the same error, the
committed response is A's and finalization yields A's response, with B's
callback never invoked (the result is independent of B). -/
theorem c2_first_wins (b : ErrorBuilder) (A B : Unit → AppResponse) :
    (b.user_facing_response = none →
      chain_user_facing_fallback (Except.error b : AppResult Unit) A =
        Except.error { b with user_facing_response := some (A ()) } ∧
      chain_user_facing_fallback
        (chain_user_facing_fallback (Except.error b : AppResult Unit) A) B =
        Except.error { b with user_facing_response := some (A ()) } ∧
      ∃ cause, ErrorBuilder.build { b with user_facing_response := some (A ()) } =
        BuiltResponse.Response (A ()) cause) ∧
    (b.user_facing_response.isSome = true →
      chain_user_facing_fallback (Except.error b : AppResult Unit) A = Except.error b) := by
  constructor
  · intro hn
    refine ⟨?_, ?_, ?_⟩
    · simp [chain_user_facing_fallback, hn]
    · simp [chain_user_facing_fallback, hn]
    · exact ⟨if b.chain.isEmpty then none
          else some (ErrorBuilder.cause_chain
            { b with user_facing_response := some (A ()) }),
        by simp [ErrorBuilder.build, List.isEmpty_iff]⟩
  · intro hs
    cases hur : b.user_facing_response with
    | none => rw [hur] at hs; simp at hs
    | some r => simp [chain_user_facing_fallback, hur]

/-- C2 witness: two fallbacks on a fresh committed-response-free Fault commit
the first callback's response. -/
theorem c2_first_wins_witness :
    chain_user_facing_fallback
      (chain_user_facing_fallback
        (Except.error { chain := [], user_facing_response := none } : AppResult Unit)
        (fun _ => json_error "A" 400))
      (fun _ => json_error "B" 500) =
      Except.error { chain := [], user_facing_response := some (json_error "A" 400) } :=
  ((c2_first_wins { chain := [], user_facing_response := none }
    (fun _ => json_error "A" 400) (fun _ => json_error "B" 500)).1 rfl).2.1

/-- C3: the rendered cause chain lists entries in reverse insertion order,
joined by " caused by ": appending contexts a, b, c in that call order onto an
empty-chain Fault yields the chain [a, b, c] and a rendering of
c ++ " caused by " ++ b ++ " caused by " ++ a; in particular for "inner",
"middle", "outer" with the Unhandled finalization path the rendered text is
exactly "outer caused by middle caused by inner". -/
theorem c3_chain_ordering :
    (∀ (a b c : String) (resp : Option AppResponse),
      chain_internal_err_cause (chain_internal_err_cause (chain_internal_err_cause
        (Except.error { chain := [], user_facing_response := resp } : AppResult Unit) a) b) c =
        Except.error { chain := [ChainElement.Internal a, ChainElement.Internal b,
          ChainElement.Internal c], user_facing_response := resp } ∧
      ErrorBuilder.cause_chain { chain := [ChainElement.Internal a, ChainElement.Internal b,
          ChainElement.Internal c], user_facing_response := resp } =
        c ++ " caused by " ++ b ++ " caused by " ++ a) ∧
    ErrorBuilder.build { chain := [ChainElement.Internal "inner", ChainElement.Internal "middle",
        ChainElement.Internal "outer"], user_facing_response := none } =
      BuiltResponse.Error ⟨"outer caused by middle caused by inner"⟩ := by
  refine ⟨fun a b c resp => ⟨?_, ?_⟩, by decide⟩
  · simp [chain_internal_err_cause]
  · simp [ErrorBuilder.cause_chain, ChainElement.text, vecJoin, String.append_assoc]

/-- C4: a Fault with a committed response finalizes to Responded carrying
exactly that response, with cause text None for an empty chain and the
rendered chain otherwise. -/
theorem c4_responded (b : ErrorBuilder) (r : AppResponse)
    (h : b.user_facing_response = some r) :
    b.build = BuiltResponse.Response r
      (if b.chain.isEmpty then none else some b.cause_chain) := by
  simp [ErrorBuilder.build, h]

/-- C4 witness: a committed response with a one-entry chain finalizes to
Responded with that response and the rendered chain. -/
theorem c4_responded_witness :
    ErrorBuilder.build
        { chain := [ChainElement.Internal "ctx"]
          user_facing_response := some (json_error "msg" 400) } =
      BuiltResponse.Response (json_error "msg" 400)
        (if ([ChainElement.Internal "ctx"] : List ChainElement).isEmpty then none
         else some (ErrorBuilder.cause_chain
           { chain := [ChainElement.Internal "ctx"]
             user_facing_response := some (json_error "msg" 400) })) :=
  c4_responded
    { chain := [ChainElement.Internal "ctx"]
      user_facing_response := some (json_error "msg" 400) }
    (json_error "msg" 400) rfl

/-- C8: chain_internal_err_cause on an error always succeeds, appends exactly
one Internal entry at the end of the chain, and leaves the committed response
and all previous entries unchanged. -/
theorem c8_append_context (b : ErrorBuilder) (msg : String) :
    chain_internal_err_cause (Except.error b : AppResult Unit) msg =
      Except.error
        { chain := b.chain ++ [ChainElement.Internal msg]
          user_facing_response := b.user_facing_response } :=
  rfl

/-- C1 counterexample: classifying the diesel database error whose message is
exactly "read-only transaction" produces a Fault whose first chain entry is
not that original failure wrapped opaque (it is the ReadOnlyMode marker; the
original failure is discarded). -/
theorem c1_counterexample :
    (convert_special_errors
      (Failure.dieselDatabaseError "read-only transaction")).chain.head? ≠
      some (ChainElement.Error (Failure.dieselDatabaseError "read-only transaction")) := by
  decide

/-- C1 (amended): for a diesel database error whose message ends with
"read-only transaction", classification produces `ReadOnlyMode.root_cause`:
the chain's sole (root) entry is the opaque `ReadOnlyMode` marker failure —
not the original failure, which is discarded — and the committed user-facing
response is already the ReadOnlyMode catalog entry (status 503, the fixed
maintenance-mode text) at classification time. -/
theorem c1_read_only_classification (info : String)
    (h : strEndsWith info "read-only transaction" = true) :
    convert_special_errors (Failure.dieselDatabaseError info) = ReadOnlyMode.root_cause ∧
    ReadOnlyMode.root_cause.chain = [ChainElement.Error Failure.readOnlyModeMarker] ∧
    ReadOnlyMode.root_cause.user_facing_response =
      some (json_error
        "Crates.io is currently in read-only mode for maintenance. Please try again later."
        503) := by
  refine ⟨?_, rfl, rfl⟩
  simp [convert_special_errors, Failure.isReadOnlyViolation, h]

/-- C1 witness: a concrete read-only-transaction message classifies to the
ReadOnlyMode builder. -/
theorem c1_read_only_classification_witness :
    convert_special_errors
      (Failure.dieselDatabaseError "cannot execute INSERT in a read-only transaction") =
      ReadOnlyMode.root_cause ∧
    ReadOnlyMode.root_cause.chain = [ChainElement.Error Failure.readOnlyModeMarker] ∧
    ReadOnlyMode.root_cause.user_facing_response =
      some (json_error
        "Crates.io is currently in read-only mode for maintenance. Please try again later."
        503) :=
  c1_read_only_classification "cannot execute INSERT in a read-only transaction" (by decide)

/-- C5: a Fault with no committed response whose first chain entry is an
opaque failure recognized as diesel's NotFound finalizes to Responded with
the NotFound catalog entry (status 404, detail "Not Found") and no cause
text, with no propose call needed. -/
theorem c5_not_found_convenience (b : ErrorBuilder) (f : Failure)
    (h1 : b.user_facing_response = none)
    (h2 : b.chain.head? = some (ChainElement.Error f))
    (h3 : f.isDieselNotFound = true) :
    b.build = BuiltResponse.Response NotFound.response none ∧
    NotFound.response =
      { status := 404
        headers := []
        body := "\x7b\"errors\":[\x7b\"detail\":\"Not Found\"\x7d]\x7d" } := by
  refine ⟨?_, by decide⟩
  simp only [ErrorBuilder.build, h1]
  rw [h2]
  simp [h3]

/-- C5 witness: the builder produced by classifying diesel NotFound finalizes
to the 404 response. -/
theorem c5_not_found_convenience_witness :
    ErrorBuilder.build
      { chain := [ChainElement.Error Failure.dieselNotFound]
        user_facing_response := none } =
      BuiltResponse.Response NotFound.response none :=
  (c5_not_found_convenience
    { chain := [ChainElement.Error Failure.dieselNotFound], user_facing_response := none }
    Failure.dieselNotFound rfl rfl rfl).1

/-- C6: a Fault with no committed response whose first chain entry is not the
recognized diesel-NotFound opaque failure (including an Internal first entry
or an empty chain) finalizes to the Unhandled outcome carrying an opaque
failure whose display rendering is exactly the rendered cause chain. -/
theorem c6_unhandled (b : ErrorBuilder)
    (h1 : b.user_facing_response = none)
    (h2 : ∀ f, b.chain.head? = some (ChainElement.Error f) → f.isDieselNotFound = false) :
    b.build = BuiltResponse.Error ⟨b.cause_chain⟩ ∧
    InternalAppError.display ⟨b.cause_chain⟩ = b.cause_chain := by
  refine ⟨?_, rfl⟩
  simp only [ErrorBuilder.build, h1]
  cases hh : b.chain.head? with
  | none => rfl
  | some el =>
    cases el with
    | Internal i => rfl
    | Error f => simp [h2 f hh]

/-- C6 witness: an Internal-rooted chain with no committed response finalizes
to Unhandled displaying the rendered chain. -/
theorem c6_unhandled_witness :
    ErrorBuilder.build
      { chain := [ChainElement.Internal "ctxA"], user_facing_response := none } =
      BuiltResponse.Error
        ⟨ErrorBuilder.cause_chain
          { chain := [ChainElement.Internal "ctxA"], user_facing_response := none }⟩ :=
  (c6_unhandled
    { chain := [ChainElement.Internal "ctxA"], user_facing_response := none }
    rfl (by intro f hf; simp at hf)).1

/-- C7: for every retry_after timestamp the TooManyRequests entry renders
status 429, a JSON body embedding retry_after formatted per
"%a, %d %b %Y %H:%M:%S GMT" in the detail text, and a Retry-After header
whose value is that identical formatted string; concretely checked at
2019-07-16 13:30:00. -/
theorem c7_too_many_requests :
    (∀ t : NaiveDateTime,
      (TooManyRequests.response t).status = 429 ∧
      (TooManyRequests.response t).headers = [("Retry-After", t.formatHttpDate)] ∧
      (TooManyRequests.response t).body =
        "\x7b\"errors\":[\x7b\"detail\":\"" ++
          jsonEscape ("You have published too many crates in a short period of time. " ++
            "Please try again after " ++ t.formatHttpDate ++
            " or email help@crates.io to have your limit increased.") ++ "\"\x7d]\x7d") ∧
    TooManyRequests.response ⟨2019, 7, 16, 13, 30, 0⟩ =
      { status := 429
        headers := [("Retry-After", "Tue, 16 Jul 2019 13:30:00 GMT")]
        body := "\x7b\"errors\":[\x7b\"detail\":\"You have published too many crates " ++
          "in a short period of time. Please try again after Tue, 16 Jul 2019 13:30:00 GMT " ++
          "or email help@crates.io to have your limit increased.\"\x7d]\x7d" } := by
  refine ⟨fun t => ⟨rfl, rfl, rfl⟩, by decide⟩

/-- Appending to a nonempty string yields a nonempty string. -/
theorem append_ne_empty_left (a b : String) (h : a ≠ "") : a ++ b ≠ "" := by
  intro hab
  apply h
  have hd : a.data ++ b.data = [] := by
    rw [← String.data_append, hab]
  have ha : a.data = [] := (List.append_eq_nil.mp hd).1
  cases a
  simp_all

/-- Joining a nonempty list of nonempty strings yields a nonempty string. -/
theorem vecJoin_ne_empty (sep : String) (l : List String) (hne : l ≠ [])
    (h : ∀ s ∈ l, s ≠ "") : vecJoin sep l ≠ "" := by
  match l with
  | [x] => simpa [vecJoin] using h x (by simp)
  | x :: y :: ys =>
    have hx : x ≠ "" := h x (by simp)
    simp only [vecJoin]
    exact append_ne_empty_left _ _ (append_ne_empty_left _ _ hx)

/-- Inversion of build: an Unhandled outcome arises only with no committed
response, and its opaque failure displays the rendered cause chain. -/
theorem build_error_inv (b : ErrorBuilder) (e : InternalAppError)
    (hb : b.build = BuiltResponse.Error e) :
    b.user_facing_response = none ∧ e.display = b.cause_chain := by
  cases hur : b.user_facing_response with
  | some r => simp [ErrorBuilder.build, hur] at hb
  | none =>
    refine ⟨rfl, ?_⟩
    simp only [ErrorBuilder.build, hur] at hb
    cases hh : b.chain.head? with
    | none =>
      rw [hh] at hb
      simp only [BuiltResponse.Error.injEq] at hb
      rw [← hb]
      rfl
    | some el =>
      cases el with
      | Internal i =>
        rw [hh] at hb
        simp only [BuiltResponse.Error.injEq] at hb
        rw [← hb]
        rfl
      | Error f =>
        rw [hh] at hb
        by_cases hf : f.isDieselNotFound = true
        · simp [hf] at hb
        · simp only [Bool.not_eq_true] at hf
          simp only [hf, Bool.false_eq_true, if_false, BuiltResponse.Error.injEq] at hb
          rw [← hb]
          rfl

/-- Every reachable builder has a nonempty cause chain or a committed
user-facing response. -/
theorem reachable_chain_or_response (b : ErrorBuilder) (h : Reachable b) :
    b.chain ≠ [] ∨ b.user_facing_response.isSome = true := by
  induction h with
  | from_error cause =>
    by_cases hc : cause.isReadOnlyViolation <;>
      simp [convert_special_errors, hc, ReadOnlyMode.root_cause]
  | bad_request m => simp [ErrorBuilder.bad_request]
  | custom_bad_request m => simp [ErrorBuilder.custom_bad_request]
  | server_error m => simp [ErrorBuilder.server_error]
  | internal info => simp [ErrorBuilder.internal]
  | cargo_err_legacy m => simp [ErrorBuilder.cargo_err_legacy]
  | custom_cargo_err_legacy m => simp [ErrorBuilder.custom_cargo_err_legacy]
  | not_found_root => simp [NotFound.root_cause]
  | forbidden_root => simp [Forbidden.root_cause]
  | read_only_root => simp [ReadOnlyMode.root_cause]
  | too_many_requests_root t => simp [TooManyRequests.root_cause]
  | insecure_token_root => simp [InsecurelyGeneratedTokenRevoked.root_cause]
  | option_internal m b heq =>
    simp only [option_chain_internal_err_cause, Except.error.injEq] at heq
    subst heq
    simp
  | option_fallback cb b heq =>
    simp only [option_chain_user_facing_fallback, Except.error.injEq] at heq
    subst heq
    simp
  | chain_internal b b' m hb heq ih =>
    simp only [chain_internal_err_cause, Except.error.injEq] at heq
    subst heq
    simp
  | chain_fallback b b' cb hb heq ih =>
    simp only [chain_user_facing_fallback] at heq
    split at heq <;> simp only [Except.error.injEq] at heq <;> subst heq
    · simp
    · exact ih

/-- C9: in every builder reachable through the public entry points, an opaque
Error chain element can occur only at position 0: every entry at a position
of at least 1 (the chain's tail) is an Internal entry. -/
theorem c9_opaque_only_at_root (b : ErrorBuilder) (h : Reachable b) :
    ∀ e ∈ b.chain.tail, ∃ info, e = ChainElement.Internal info := by
  induction h with
  | from_error cause =>
    by_cases hc : cause.isReadOnlyViolation <;>
      simp [convert_special_errors, hc, ReadOnlyMode.root_cause]
  | bad_request m => simp [ErrorBuilder.bad_request]
  | custom_bad_request m => simp [ErrorBuilder.custom_bad_request]
  | server_error m => simp [ErrorBuilder.server_error]
  | internal info => simp [ErrorBuilder.internal]
  | cargo_err_legacy m => simp [ErrorBuilder.cargo_err_legacy]
  | custom_cargo_err_legacy m => simp [ErrorBuilder.custom_cargo_err_legacy]
  | not_found_root => simp [NotFound.root_cause]
  | forbidden_root => simp [Forbidden.root_cause]
  | read_only_root => simp [ReadOnlyMode.root_cause]
  | too_many_requests_root t => simp [TooManyRequests.root_cause]
  | insecure_token_root => simp [InsecurelyGeneratedTokenRevoked.root_cause]
  | option_internal m b heq =>
    simp only [option_chain_internal_err_cause, Except.error.injEq] at heq
    subst heq
    simp
  | option_fallback cb b heq =>
    simp only [option_chain_user_facing_fallback, Except.error.injEq] at heq
    subst heq
    simp
  | chain_internal b b' m hb heq ih =>
    simp only [chain_internal_err_cause, Except.error.injEq] at heq
    subst heq
    intro e he
    cases hc : b.chain with
    | nil =>
      rw [hc] at he
      simp at he
    | cons z zs =>
      rw [hc] at he
      simp only [List.cons_append, List.tail_cons, List.mem_append,
        List.mem_singleton] at he
      rcases he with he | he
      · exact ih e (by rw [hc]; exact he)
      · exact ⟨m, he⟩
  | chain_fallback b b' cb hb heq ih =>
    simp only [chain_user_facing_fallback] at heq
    split at heq <;> simp only [Except.error.injEq] at heq <;> subst heq
    · exact ih
    · exact ih

/-- C9 witness: in the reachable builder obtained by classifying a generic
failure and appending one context, the tail entry is Internal. -/
theorem c9_opaque_only_at_root_witness :
    ∃ info, ChainElement.Internal "ctx" = ChainElement.Internal info :=
  c9_opaque_only_at_root
    { chain := [ChainElement.Error (Failure.other "io"), ChainElement.Internal "ctx"]
      user_facing_response := none }
    (Reachable.chain_internal (convert_special_errors (Failure.other "io")) _ "ctx"
      (Reachable.from_error (Failure.other "io")) rfl)
    (ChainElement.Internal "ctx") (by simp)

/-- C10 counterexample: the builder produced by chaining the empty internal
message onto a None value is reachable, has a nonempty chain, and finalizes
to an Unhandled outcome whose rendered text is the empty string — refuting
the claim that an Unhandled outcome's rendered text is never empty. -/
theorem c10_counterexample :
    Reachable { chain := [ChainElement.Internal ""], user_facing_response := none } ∧
    ErrorBuilder.build { chain := [ChainElement.Internal ""], user_facing_response := none } =
      BuiltResponse.Error ⟨""⟩ ∧
    InternalAppError.display ⟨""⟩ = "" :=
  ⟨Reachable.option_internal "" _ rfl, by decide, rfl⟩

/-- C10 (amended): every builder reachable through the public entry points
has a nonempty cause chain or a committed response; build takes the Unhandled
branch only with no committed response and hence a nonempty chain, and the
Unhandled outcome's rendered text is nonempty provided every chain entry's
text is nonempty (an empty appended context string renders empty). -/
theorem c10_reachable_invariant (b : ErrorBuilder) (h : Reachable b) :
    (b.chain ≠ [] ∨ b.user_facing_response.isSome = true) ∧
    ∀ e : InternalAppError, b.build = BuiltResponse.Error e →
      b.chain ≠ [] ∧
      ((∀ el ∈ b.chain, ChainElement.text el ≠ "") → e.display ≠ "") := by
  have h1 := reachable_chain_or_response b h
  refine ⟨h1, ?_⟩
  intro e hb
  obtain ⟨hnone, hdisp⟩ := build_error_inv b e hb
  have hne : b.chain ≠ [] := by
    rcases h1 with h1 | h1
    · exact h1
    · rw [hnone] at h1
      simp at h1
  refine ⟨hne, ?_⟩
  intro hall
  rw [hdisp]
  unfold ErrorBuilder.cause_chain
  apply vecJoin_ne_empty
  · simp [hne]
  · intro s hs
    simp only [List.mem_map, List.mem_reverse] at hs
    obtain ⟨el, hel, rfl⟩ := hs
    exact hall el hel

/-- C10 witness: a reachable one-entry builder with nonempty context
finalizes to an Unhandled outcome with nonempty rendered text. -/
theorem c10_reachable_invariant_witness :
    InternalAppError.display ⟨"boom"⟩ ≠ "" :=
  ((c10_reachable_invariant (ErrorBuilder.internal "boom")
      (Reachable.internal "boom")).2 ⟨"boom"⟩ (by decide)).2 (by decide)

end CratesIo
